import Mathlib

/-!
Verification of the image-to-annotated-result pipeline of `src/app.py`.

The pipeline is embedded shallowly:

* Python byte strings are represented by their length (`Nat`), which is all the
  validation logic inspects.
* The OCR response is the `read` section: `Option ReadResult`, where
  `ReadResult` holds the ordered blocks of lines returned by the service;
  each line carries a text and an optional bounding polygon.  The outcome of
  the remote `cv_client.analyze` call (which may raise) is supplied as an
  `Except String (Option ReadResult)` argument.
* A PIL image is an abstract base pixel content (`Nat` identifier for the
  decoded file) together with the list of drawing operations that
  `ImageDraw.Draw` has applied to it in place, in order.  `ImageDraw.Draw`
  mutates the image object it is given; the image component returned by the
  embedded `GetTextRead` is the post-call state of the `original_image`
  object that was passed in.
* Python truthiness of optional strings/lists is made explicit
  (`strTruthy`, `listTruthy`), and `str.strip()` is embedded as `pyStrip`
  over the ASCII whitespace characters Python strips.
-/

/-- A pixel-space point of a bounding polygon (Azure returns integer pixel
coordinates `x`, `y`). -/
structure ImagePoint where
  x : Int
  y : Int
deriving DecidableEq, Repr

/-- One recognized text line: its text and the optional bounding polygon
(`line.text`, `line.bounding_polygon` in the source). -/
structure TextLine where
  text : String
  bounding_polygon : Option (List ImagePoint)
deriving DecidableEq, Repr

/-- One block of recognized lines (`block.lines`). -/
structure TextBlock where
  lines : List TextLine
deriving DecidableEq, Repr

/-- The `read` section of the OCR response: ordered blocks
(`result.read.blocks`). -/
structure ReadResult where
  blocks : List TextBlock
deriving DecidableEq, Repr

/-- A drawing operation applied to a PIL image: `draw.polygon(pts,
outline=c, width=w)` or `draw.text(pos, s, fill=c)`. -/
inductive DrawOp where
  | polygon (pts : List ImagePoint) (outline : String) (width : Nat)
  | text (pos : ImagePoint) (s : String) (fill : String)
deriving DecidableEq, Repr

/-- A PIL image: the abstract pixel content of the opened file (`base`) plus
the drawing operations applied to the object in place, in order. -/
structure PILImage where
  base : Nat
  ops : List DrawOp
deriving DecidableEq, Repr

/-- Python truthiness of an optional list (`if line.bounding_polygon:`):
`None` and the empty list are falsy. -/
def listTruthy (o : Option (List ImagePoint)) : Bool :=
  match o with
  | none => false
  | some l => !l.isEmpty

/-- Python truthiness of an optional string (`if not ai_endpoint`,
`if extracted_text:`): `None` and the empty string are falsy. -/
def strTruthy (o : Option String) : Bool :=
  match o with
  | none => false
  | some s => !(s == "")

/-- The ASCII whitespace characters removed by Python `str.strip()`. -/
def pyWs (c : Char) : Bool :=
  c == ' ' || c == '\t' || c == '\n' || c == '\r' || c == '\x0b' || c == '\x0c'

/-- Remove trailing `pyWs` characters. -/
def rstripChars (l : List Char) : List Char :=
  (l.reverse.dropWhile pyWs).reverse

/-- Python `str.strip()`: remove leading and trailing whitespace. -/
def pyStrip (s : String) : String :=
  String.mk ((rstripChars s.data).dropWhile pyWs)

/-- The fixed highlight color of `GetTextRead` (`color = 'cyan'`). -/
def color : String := "cyan"

/-- One iteration of the inner line loop of `GetTextRead`: append
`f"{line.text} "` to the accumulated text, then, when the bounding polygon
is truthy, draw the polygon outline (`draw.polygon(..., outline=color,
width=3)`) followed by the text label at the polygon's first vertex
(`draw.text(bounding_polygon[0], line.text, fill=color)`), both in place on
the image. -/
def drawLine (st : String × PILImage) (line : TextLine) : String × PILImage :=
  let extracted := st.1 ++ line.text ++ " "
  match line.bounding_polygon with
  | some r =>
      if r.isEmpty then (extracted, st.2)
      else
        let img1 : PILImage := ⟨st.2.base, st.2.ops ++ [DrawOp.polygon r color 3]⟩
        let img2 : PILImage := ⟨img1.base, img1.ops ++ [DrawOp.text (r.headD ⟨0, 0⟩) line.text color]⟩
        (extracted, img2)
  | none => (extracted, st.2)

/-- The outcome of the embedded `GetTextRead`: the returned extracted text
(`None` or the stripped string), the post-call state of the
`original_image` object, and whether `st.error` was shown. -/
structure GTRResult where
  extracted : Option String
  image : PILImage
  error_shown : Bool
deriving DecidableEq, Repr

/-- `GetTextRead(image_file, image_data, original_image)`.  The outcome of
the remote `cv_client.analyze` call is supplied as `ocr`.  On a present
`result.read`, the code loops over blocks then lines, accumulating
`extracted_text` and drawing in place on `original_image`, and returns
`extracted_text.strip()`.  On `result.read is None` it returns `None`.  An
exception from the call is caught, `st.error` is shown, and `None` is
returned. -/
def GetTextRead (ocr : Except String (Option ReadResult)) (original_image : PILImage) :
    GTRResult :=
  match ocr with
  | Except.error _ => ⟨none, original_image, true⟩
  | Except.ok none => ⟨none, original_image, false⟩
  | Except.ok (some rr) =>
      let final := rr.blocks.foldl (fun st b => b.lines.foldl drawLine st) ("", original_image)
      ⟨some (pyStrip final.1), final.2, false⟩

/-- The validation errors of `process_image`. -/
inductive ValidationError where
  | EmptyImage
  | ImageTooLarge
deriving DecidableEq, Repr

/-- The size validation of `process_image` (lines 74-80): empty payloads and
payloads over 20971520 bytes are rejected, in that order. -/
def validate (L : Nat) : Except ValidationError Unit :=
  if L = 0 then Except.error ValidationError.EmptyImage
  else if L > 20971520 then Except.error ValidationError.ImageTooLarge
  else Except.ok ()

/-- Observable outcome of one `process_image` run. -/
structure PipelineTrace where
  validation_error : Option ValidationError
  ocr_called : Bool
  image : PILImage
  extracted : Option String
  recognition_error_shown : Bool
  sentiment_called : Bool
deriving DecidableEq, Repr

/-- `process_image(image_data, image_file)`: validate the byte length, and on
success call `GetTextRead`; `sentiment_analysis(extracted_text)` is invoked
exactly when the returned `extracted_text` is truthy.  `image` is the PIL
image opened from the upload; the remote OCR outcome is supplied as
`ocr`. -/
def process_image (image_data_size : Nat) (image : PILImage)
    (ocr : Except String (Option ReadResult)) : PipelineTrace :=
  if image_data_size = 0 then
    ⟨some ValidationError.EmptyImage, false, image, none, false, false⟩
  else if image_data_size > 20971520 then
    ⟨some ValidationError.ImageTooLarge, false, image, none, false, false⟩
  else
    let g := GetTextRead ocr image
    ⟨none, true, g.image, g.extracted, g.error_shown, strTruthy g.extracted⟩

/-- The environment variables read by `main` (`os.getenv` returns `None`
when unset). -/
structure EnvConfig where
  ai_endpoint : Option String
  ai_key : Option String
  text_endpoint : Option String
  text_key : Option String
  video_indexer_key : Option String
  video_indexer_endpoint : Option String
  video_indexer_location : Option String
deriving DecidableEq, Repr

/-- The two Azure clients `main` constructs after validation. -/
structure Clients where
  cv_endpoint : String
  cv_key : String
  ta_endpoint : String
  ta_key : String
deriving DecidableEq, Repr

/-- The startup section of `main` (lines 26-47): load the seven environment
variables, raise `ValueError` when any of the six checked ones is falsy,
and only then construct the two clients. -/
def mainStartup (env : EnvConfig) : Except String Clients :=
  if !strTruthy env.ai_endpoint || !strTruthy env.ai_key
      || !strTruthy env.text_endpoint || !strTruthy env.text_key
      || !strTruthy env.video_indexer_key || !strTruthy env.video_indexer_endpoint then
    Except.error "One or more service endpoints or keys are not set in the .env file"
  else
    Except.ok ⟨env.ai_endpoint.getD "", env.ai_key.getD "",
      env.text_endpoint.getD "", env.text_key.getD ""⟩

/-- The drawing operations `GetTextRead` emits for one line: both the polygon
outline and the text label when the bounding polygon is truthy, nothing
otherwise. -/
def lineOps (line : TextLine) : List DrawOp :=
  match line.bounding_polygon with
  | some r =>
      if r.isEmpty then []
      else [DrawOp.polygon r color 3, DrawOp.text (r.headD ⟨0, 0⟩) line.text color]
  | none => []

/-- All lines of a read result, in block order then line order. -/
def linesOf (rr : ReadResult) : List TextLine :=
  rr.blocks.flatMap (fun b => b.lines)

/-- The line texts of a read result, in block order then line order. -/
def lineTexts (rr : ReadResult) : List String :=
  (linesOf rr).map (fun l => l.text)

/-- All drawing operations `GetTextRead` emits for a given OCR outcome. -/
def gtrOps (ocr : Except String (Option ReadResult)) : List DrawOp :=
  match ocr with
  | Except.ok (some rr) => (linesOf rr).flatMap lineOps
  | _ => []

/-- Spec-side join: the given strings separated by a single space
(the spec's description of the aggregated document, before trimming). -/
def specJoin : List String → String
  | [] => ""
  | [t] => t
  | t :: r :: rest => t ++ " " ++ specJoin (r :: rest)

/-- The accumulated `extracted_text` before stripping: each text followed by
one space. -/
def catSpaces : List String → String
  | [] => ""
  | t :: rest => t ++ " " ++ catSpaces rest

/-- The recognized line of the spec's round-trip scenario: text HELLO with a
four-point bounding polygon. -/
def helloLine : TextLine :=
  ⟨"HELLO", some [⟨0, 0⟩, ⟨10, 0⟩, ⟨10, 5⟩, ⟨0, 5⟩]⟩

/-- A line whose bounding polygon has a single point. -/
def onePointLine : TextLine := ⟨"A", some [⟨3, 4⟩]⟩

lemma drawLine_eq (st : String × PILImage) (line : TextLine) :
    drawLine st line = (st.1 ++ line.text ++ " ", ⟨st.2.base, st.2.ops ++ lineOps line⟩) := by
  cases st with
  | mk s img =>
    cases h : line.bounding_polygon with
    | none => simp [drawLine, lineOps, h]
    | some r =>
      by_cases hr : r.isEmpty
      · simp [drawLine, lineOps, h, hr]
      · simp [drawLine, lineOps, h, hr, List.append_assoc]

lemma catSpaces_append (a b : List String) :
    catSpaces (a ++ b) = catSpaces a ++ catSpaces b := by
  induction a with
  | nil => simp [catSpaces]
  | cons t rest ih => simp [catSpaces, ih, String.append_assoc]

lemma foldl_drawLine_eq (ls : List TextLine) (s : String) (img : PILImage) :
    ls.foldl drawLine (s, img) =
      (s ++ catSpaces (ls.map TextLine.text), ⟨img.base, img.ops ++ ls.flatMap lineOps⟩) := by
  induction ls generalizing s img with
  | nil => simp [catSpaces]
  | cons l rest ih =>
    simp only [List.foldl_cons, drawLine_eq]
    rw [ih]
    simp [catSpaces, String.append_assoc, List.append_assoc]

lemma foldl_blocks_eq (bs : List TextBlock) (s : String) (img : PILImage) :
    bs.foldl (fun st b => b.lines.foldl drawLine st) (s, img) =
      (s ++ catSpaces ((bs.flatMap (fun b => b.lines)).map TextLine.text),
        ⟨img.base, img.ops ++ (bs.flatMap (fun b => b.lines)).flatMap lineOps⟩) := by
  induction bs generalizing s img with
  | nil => simp [catSpaces]
  | cons b rest ih =>
    simp only [List.foldl_cons]
    rw [foldl_drawLine_eq, ih]
    simp [catSpaces_append, String.append_assoc, List.append_assoc]

lemma GetTextRead_ok_some (rr : ReadResult) (img : PILImage) :
    GetTextRead (Except.ok (some rr)) img =
      ⟨some (pyStrip (catSpaces (lineTexts rr))),
        ⟨img.base, img.ops ++ (linesOf rr).flatMap lineOps⟩, false⟩ := by
  have h0 : GetTextRead (Except.ok (some rr)) img =
      ⟨some (pyStrip (rr.blocks.foldl (fun st b => b.lines.foldl drawLine st) ("", img)).1),
        (rr.blocks.foldl (fun st b => b.lines.foldl drawLine st) ("", img)).2, false⟩ := rfl
  rw [h0, foldl_blocks_eq]
  simp [lineTexts, linesOf]

lemma rstripChars_append_space (l : List Char) :
    rstripChars (l ++ [' ']) = rstripChars l := by
  simp [rstripChars, List.reverse_append, List.dropWhile_cons, pyWs]

lemma pyStrip_append_space (s : String) : pyStrip (s ++ " ") = pyStrip s := by
  have h : (s ++ " ").data = s.data ++ [' '] := by
    cases s with
    | mk l => rfl
  simp [pyStrip, h, rstripChars_append_space]

lemma catSpaces_eq_specJoin (t : String) (rest : List String) :
    catSpaces (t :: rest) = specJoin (t :: rest) ++ " " := by
  induction rest generalizing t with
  | nil => simp [catSpaces, specJoin]
  | cons r rest2 ih =>
    show t ++ " " ++ catSpaces (r :: rest2) = (t ++ " " ++ specJoin (r :: rest2)) ++ " "
    rw [ih r]
    simp [String.append_assoc]

lemma pyStrip_catSpaces (l : List String) :
    pyStrip (catSpaces l) = pyStrip (specJoin l) := by
  cases l with
  | nil => rfl
  | cons t rest => rw [catSpaces_eq_specJoin, pyStrip_append_space]

lemma dropWhile_dropWhile (p : Char → Bool) (l : List Char) :
    (l.dropWhile p).dropWhile p = l.dropWhile p := by
  induction l with
  | nil => rfl
  | cons c t ih =>
    cases h : p c with
    | true => simp [List.dropWhile_cons, h, ih]
    | false => simp [List.dropWhile_cons, h]

lemma length_dropWhile_le (p : Char → Bool) (l : List Char) :
    (l.dropWhile p).length ≤ l.length := by
  induction l with
  | nil => simp
  | cons c t ih =>
    cases h : p c with
    | true =>
      simp only [List.dropWhile_cons, h, if_true, List.length_cons]
      exact Nat.le_succ_of_le ih
    | false => simp [List.dropWhile_cons, h]

lemma dropWhile_eq_self_append (p : Char → Bool) (a b : List Char)
    (h : (a ++ b).dropWhile p = a ++ b) : a.dropWhile p = a := by
  cases a with
  | nil => rfl
  | cons c t =>
    cases hc : p c with
    | false => simp [List.dropWhile_cons, hc]
    | true =>
      exfalso
      have h1 : ((c :: t) ++ b).dropWhile p = (t ++ b).dropWhile p := by
        simp [List.dropWhile_cons, hc]
      have h2 : ((t ++ b).dropWhile p).length ≤ (t ++ b).length :=
        length_dropWhile_le p (t ++ b)
      rw [h1] at h
      rw [h] at h2
      simp only [List.length_append, List.length_cons] at h2
      omega

lemma rstrip_invariant (p : Char → Bool) (m : List Char)
    (h : m.reverse.dropWhile p = m.reverse) :
    (m.dropWhile p).reverse.dropWhile p = (m.dropWhile p).reverse := by
  induction m with
  | nil => rfl
  | cons c t ih =>
    cases hc : p c with
    | false =>
      simp only [List.dropWhile_cons, hc]
      exact h
    | true =>
      simp only [List.dropWhile_cons, hc]
      apply ih
      apply dropWhile_eq_self_append p t.reverse [c]
      simpa using h

lemma pyStrip_idem (s : String) : pyStrip (pyStrip s) = pyStrip s := by
  cases s with
  | mk l =>
    have h1 : (rstripChars l).reverse.dropWhile pyWs = (rstripChars l).reverse := by
      unfold rstripChars
      rw [List.reverse_reverse]
      exact dropWhile_dropWhile pyWs l.reverse
    have h2 := rstrip_invariant pyWs (rstripChars l) h1
    unfold rstripChars at h2
    show String.mk ((rstripChars ((rstripChars l).dropWhile pyWs)).dropWhile pyWs) =
      String.mk ((rstripChars l).dropWhile pyWs)
    unfold rstripChars
    rw [h2, List.reverse_reverse, dropWhile_dropWhile]

/-- Claim C1: for every image payload of byte length L, validation succeeds
(and the pipeline proceeds to the OCR call) iff 0 < L and L ≤ 20971520; it
fails with the empty-image error exactly when L = 0 and with the too-large
error exactly when L > 20971520; in the failure cases the pipeline state is
untouched: no OCR call, the image unchanged, no extracted text, no sentiment
call, no recognition error. -/
theorem validate_size_spec (L : Nat) (img : PILImage)
    (ocr : Except String (Option ReadResult)) :
    (validate L = Except.ok () ↔ (0 < L ∧ L ≤ 20971520)) ∧
    (validate L = Except.error ValidationError.EmptyImage ↔ L = 0) ∧
    (validate L = Except.error ValidationError.ImageTooLarge ↔ 20971520 < L) ∧
    ((0 < L ∧ L ≤ 20971520) → (process_image L img ocr).ocr_called = true) ∧
    (L = 0 → process_image L img ocr =
      ⟨some ValidationError.EmptyImage, false, img, none, false, false⟩) ∧
    (20971520 < L → process_image L img ocr =
      ⟨some ValidationError.ImageTooLarge, false, img, none, false, false⟩) := by
  by_cases h0 : L = 0
  · subst h0
    simp [validate, process_image]
  · by_cases h1 : 20971520 < L
    · simp [validate, process_image, h0, h1]
    · simp [validate, process_image, h0, h1]
      omega

/-- Witness for validate_size_spec at lengths 0, 20971521 and 5. -/
theorem validate_size_spec_witness :
    validate 0 = Except.error ValidationError.EmptyImage ∧
    validate 20971521 = Except.error ValidationError.ImageTooLarge ∧
    process_image 0 ⟨0, []⟩ (Except.ok none) =
      ⟨some ValidationError.EmptyImage, false, ⟨0, []⟩, none, false, false⟩ ∧
    (process_image 5 ⟨0, []⟩ (Except.ok none)).ocr_called = true := by
  refine ⟨?_, ?_, ?_, ?_⟩
  · exact (validate_size_spec 0 ⟨0, []⟩ (Except.ok none)).2.1.mpr rfl
  · exact (validate_size_spec 20971521 ⟨0, []⟩ (Except.ok none)).2.2.1.mpr (by omega)
  · exact (validate_size_spec 0 ⟨0, []⟩ (Except.ok none)).2.2.2.2.1 rfl
  · exact (validate_size_spec 5 ⟨0, []⟩ (Except.ok none)).2.2.2.1 (by omega)

/-- Claim C2 counterexample: rendering one recognized line changes the image
object passed to the renderer: `ImageDraw.Draw(original_image)` draws in
place and no new buffer is created, so the source image is mutated. -/
theorem render_mutates_source_counterexample :
    (GetTextRead (Except.ok (some ⟨[⟨[helloLine]⟩]⟩)) ⟨7, []⟩).image ≠
      (⟨7, []⟩ : PILImage) := by
  decide

/-- Claim C2 amended: the renderer draws directly on the source image passed
in — the annotated output is the same buffer (same base pixel content, no
new buffer is created) with the drawing operations appended in place; it
coincides with the source image exactly when no drawing operation is
emitted. -/
theorem render_in_place_spec (ocr : Except String (Option ReadResult)) (img : PILImage) :
    (GetTextRead ocr img).image.base = img.base ∧
    (GetTextRead ocr img).image.ops = img.ops ++ gtrOps ocr := by
  cases ocr with
  | error e => simp [GetTextRead, gtrOps]
  | ok o =>
    cases o with
    | none => simp [GetTextRead, gtrOps]
    | some rr =>
      rw [GetTextRead_ok_some]
      simp [gtrOps]

/-- Claim C3 counterexample: a one-point polygon (fewer than 2 points) is not
skipped: the renderer emits its polygon outline and its label anyway, since
the code only tests Python truthiness of `line.bounding_polygon`. -/
theorem one_point_polygon_drawn_counterexample :
    (∃ pts, onePointLine.bounding_polygon = some pts ∧ pts.length < 2) ∧
    (GetTextRead (Except.ok (some ⟨[⟨[onePointLine]⟩]⟩)) ⟨0, []⟩).image.ops =
      [DrawOp.polygon [⟨3, 4⟩] color 3, DrawOp.text ⟨3, 4⟩ "A" color] := by
  exact ⟨⟨[⟨3, 4⟩], rfl, by decide⟩, by decide⟩

/-- Claim C3 amended: the renderer draws, for each line, the closed polygon
outline through the vertices in the order given followed by the text label,
exactly when the bounding polygon is present and non-empty; an absent or
empty polygon is skipped silently; a polygon with exactly one point is not
skipped but passed on to the drawing call. -/
theorem polygon_draw_condition_spec (rr : ReadResult) (img : PILImage) :
    ((GetTextRead (Except.ok (some rr)) img).image.ops =
      img.ops ++ (linesOf rr).flatMap lineOps) ∧
    (∀ line : TextLine, ∀ pts, line.bounding_polygon = some pts → pts ≠ [] →
      lineOps line = [DrawOp.polygon pts color 3,
        DrawOp.text (pts.headD ⟨0, 0⟩) line.text color]) ∧
    (∀ line : TextLine, listTruthy line.bounding_polygon = false → lineOps line = []) := by
  refine ⟨?_, ?_, ?_⟩
  · rw [GetTextRead_ok_some]
  · intro line pts hp hne
    simp [lineOps, hp, hne]
  · intro line h
    cases hp : line.bounding_polygon with
    | none => simp [lineOps, hp]
    | some r =>
      rw [hp] at h
      simp only [listTruthy, Bool.not_eq_false'] at h
      simp [lineOps, hp, h]

/-- Witness for polygon_draw_condition_spec at the round-trip scenario
line. -/
theorem polygon_draw_condition_spec_witness :
    lineOps helloLine = [DrawOp.polygon [⟨0, 0⟩, ⟨10, 0⟩, ⟨10, 5⟩, ⟨0, 5⟩] color 3,
      DrawOp.text ⟨0, 0⟩ "HELLO" color] ∧
    (GetTextRead (Except.ok (some ⟨[⟨[helloLine]⟩]⟩)) ⟨0, []⟩).image.ops =
      [] ++ (linesOf ⟨[⟨[helloLine]⟩]⟩).flatMap lineOps := by
  constructor
  · exact (polygon_draw_condition_spec ⟨[⟨[helloLine]⟩]⟩ ⟨0, []⟩).2.1 helloLine
      [⟨0, 0⟩, ⟨10, 0⟩, ⟨10, 5⟩, ⟨0, 5⟩] rfl (by decide)
  · exact (polygon_draw_condition_spec ⟨[⟨[helloLine]⟩]⟩ ⟨0, []⟩).1

/-- Claim C4 counterexample: on the empty sentinel (`result.read is None`)
the pipeline produces no aggregated document at all (`None` is returned),
not the empty string. -/
theorem empty_sentinel_document_counterexample :
    (GetTextRead (Except.ok none) ⟨0, []⟩).extracted ≠ some "" := by
  decide

/-- Claim C4 amended: for every recognition result with blocks, the
aggregated document equals the line texts in block order then line order
joined by a single space and stripped of leading/trailing whitespace,
independent of polygon presence; on the empty sentinel no document is
produced (`None`, not the empty string). -/
theorem aggregate_spec (rr : ReadResult) (img img2 : PILImage) :
    (GetTextRead (Except.ok (some rr)) img).extracted =
      some (pyStrip (specJoin (lineTexts rr))) ∧
    (GetTextRead (Except.ok none) img2).extracted = none := by
  constructor
  · rw [GetTextRead_ok_some]
    simp [pyStrip_catSpaces]
  · rfl

/-- Claim C5: when OCR yields the empty sentinel (no text found), the
pipeline produces no non-empty aggregated document (the extracted text is
`None`, an empty document), never invokes the sentiment call, raises no
error, and leaves the image untouched. -/
theorem empty_sentinel_skips_sentiment_spec (L : Nat) (img : PILImage)
    (h0 : 0 < L) (h1 : L ≤ 20971520) :
    (process_image L img (Except.ok none)).extracted = none ∧
    (process_image L img (Except.ok none)).extracted.getD "" = "" ∧
    (process_image L img (Except.ok none)).sentiment_called = false ∧
    (process_image L img (Except.ok none)).recognition_error_shown = false ∧
    (process_image L img (Except.ok none)).image = img := by
  have hz : ¬ (L = 0) := by omega
  have hg : ¬ (L > 20971520) := by omega
  simp [process_image, hz, hg, GetTextRead, strTruthy]

/-- Witness for empty_sentinel_skips_sentiment_spec at length 5. -/
theorem empty_sentinel_skips_sentiment_spec_witness :
    (process_image 5 ⟨0, []⟩ (Except.ok none)).sentiment_called = false ∧
    (process_image 5 ⟨0, []⟩ (Except.ok none)).extracted = none := by
  have h := empty_sentinel_skips_sentiment_spec 5 ⟨0, []⟩ (by omega) (by omega)
  exact ⟨h.2.2.1, h.1⟩

/-- Claim C6: when the underlying OCR call raises, the pipeline shows the
recognition error message and invokes none of rendering (image unchanged),
aggregation (no extracted text) or sentiment; the failure is converted into
a user-visible message, scoped to the single request. -/
theorem ocr_failure_aborts_spec (L : Nat) (img : PILImage) (e : String)
    (h0 : 0 < L) (h1 : L ≤ 20971520) :
    (process_image L img (Except.error e)).recognition_error_shown = true ∧
    (process_image L img (Except.error e)).image = img ∧
    (process_image L img (Except.error e)).extracted = none ∧
    (process_image L img (Except.error e)).sentiment_called = false := by
  have hz : ¬ (L = 0) := by omega
  have hg : ¬ (L > 20971520) := by omega
  simp [process_image, hz, hg, GetTextRead, strTruthy]

/-- Witness for ocr_failure_aborts_spec at a concrete failing call. -/
theorem ocr_failure_aborts_spec_witness :
    (process_image 5 ⟨0, []⟩ (Except.error "transport failure")).recognition_error_shown
      = true ∧
    (process_image 5 ⟨0, []⟩ (Except.error "transport failure")).sentiment_called = false := by
  have h := ocr_failure_aborts_spec 5 ⟨0, []⟩ "transport failure" (by omega) (by omega)
  exact ⟨h.1, h.2.2.2⟩

/-- Claim C7: the size validation runs strictly before the OCR invocation —
the OCR call happens exactly when validation succeeds, and on a validation
failure no remote service is contacted (no OCR call, no sentiment call) and
the request state is otherwise untouched. -/
theorem validation_before_network_spec (L : Nat) (img : PILImage)
    (ocr : Except String (Option ReadResult)) :
    ((process_image L img ocr).ocr_called = true ↔ validate L = Except.ok ()) ∧
    (validate L ≠ Except.ok () →
      (process_image L img ocr).ocr_called = false ∧
      (process_image L img ocr).sentiment_called = false ∧
      (process_image L img ocr).image = img ∧
      (process_image L img ocr).extracted = none) := by
  by_cases h0 : L = 0
  · subst h0
    simp [validate, process_image]
  · by_cases h1 : 20971520 < L
    · simp [validate, process_image, h0, h1]
    · simp [validate, process_image, h0, h1]

/-- Witness for validation_before_network_spec at length 0. -/
theorem validation_before_network_spec_witness :
    (process_image 0 ⟨0, []⟩ (Except.ok none)).ocr_called = false ∧
    (process_image 0 ⟨0, []⟩ (Except.ok none)).sentiment_called = false := by
  have h := (validation_before_network_spec 0 ⟨0, []⟩ (Except.ok none)).2
    (by simp [validate])
  exact ⟨h.1, h.2.1⟩

/-- Claim C8: at startup the six required configuration values (endpoint URL
and key for each of the OCR, sentiment and indexing services) are validated
as non-empty strings: the clients are constructed exactly when all six are
present and non-empty, and otherwise main raises before constructing any
client. -/
theorem startup_config_spec (env : EnvConfig) :
    ((∃ cl, mainStartup env = Except.ok cl) ↔
      (strTruthy env.ai_endpoint = true ∧ strTruthy env.ai_key = true ∧
        strTruthy env.text_endpoint = true ∧ strTruthy env.text_key = true ∧
        strTruthy env.video_indexer_key = true ∧
        strTruthy env.video_indexer_endpoint = true)) ∧
    (∀ s : String, strTruthy (some s) = true ↔ s ≠ "") ∧
    strTruthy (none : Option String) = false := by
  refine ⟨?_, ?_, rfl⟩
  · cases ha : strTruthy env.ai_endpoint <;>
    cases hb : strTruthy env.ai_key <;>
    cases hc : strTruthy env.text_endpoint <;>
    cases hd : strTruthy env.text_key <;>
    cases he : strTruthy env.video_indexer_key <;>
    cases hf : strTruthy env.video_indexer_endpoint <;>
      simp [mainStartup, ha, hb, hc, hd, he, hf]
  · intro s
    simp [strTruthy]

/-- Witness for startup_config_spec at a fully populated configuration. -/
theorem startup_config_spec_witness :
    (∃ cl, mainStartup ⟨some "e1", some "k1", some "e2", some "k2", some "k3",
      some "e3", none⟩ = Except.ok cl) ∧
    strTruthy (some "x") = true := by
  have h := startup_config_spec ⟨some "e1", some "k1", some "e2", some "k2", some "k3",
    some "e3", none⟩
  constructor
  · exact h.1.mpr ⟨rfl, rfl, rfl, rfl, rfl, rfl⟩
  · exact (h.2.1 "x").mpr (by decide)

/-- Claim C9: whenever a line's bounding polygon is drawn, the renderer also
draws that line's text label at the polygon's first vertex in the same
highlight color: both the polygon operation and the label operation appear
in the annotated image, unconditionally (the source has no option that
disables labels). -/
theorem label_accompanies_polygon_spec (rr : ReadResult) (img : PILImage)
    (line : TextLine) (pts : List ImagePoint)
    (hmem : line ∈ linesOf rr) (hp : line.bounding_polygon = some pts) (hne : pts ≠ []) :
    DrawOp.polygon pts color 3 ∈ (GetTextRead (Except.ok (some rr)) img).image.ops ∧
    DrawOp.text (pts.headD ⟨0, 0⟩) line.text color ∈
      (GetTextRead (Except.ok (some rr)) img).image.ops := by
  have hops : lineOps line = [DrawOp.polygon pts color 3,
      DrawOp.text (pts.headD ⟨0, 0⟩) line.text color] := by
    simp [lineOps, hp, hne]
  rw [GetTextRead_ok_some]
  simp only [List.mem_append]
  constructor
  · right
    rw [List.mem_flatMap]
    exact ⟨line, hmem, by rw [hops]; simp⟩
  · right
    rw [List.mem_flatMap]
    exact ⟨line, hmem, by rw [hops]; simp⟩

/-- Witness for label_accompanies_polygon_spec at the round-trip line. -/
theorem label_accompanies_polygon_spec_witness :
    DrawOp.polygon [⟨0, 0⟩, ⟨10, 0⟩, ⟨10, 5⟩, ⟨0, 5⟩] color 3 ∈
      (GetTextRead (Except.ok (some ⟨[⟨[helloLine]⟩]⟩)) ⟨0, []⟩).image.ops ∧
    DrawOp.text ⟨0, 0⟩ "HELLO" color ∈
      (GetTextRead (Except.ok (some ⟨[⟨[helloLine]⟩]⟩)) ⟨0, []⟩).image.ops := by
  exact label_accompanies_polygon_spec ⟨[⟨[helloLine]⟩]⟩ ⟨0, []⟩ helloLine
    [⟨0, 0⟩, ⟨10, 0⟩, ⟨10, 5⟩, ⟨0, 5⟩] (by decide) rfl (by decide)

/-- Claim C10: a present read section with zero lines yields the empty
string as the aggregated document, a distinct outcome from the empty
sentinel which yields no document at all; both cases skip sentiment, and in
general the sentiment call happens exactly when the aggregated document is
present and non-empty after stripping. -/
theorem zero_lines_empty_document_spec (L : Nat) (img : PILImage)
    (rr : ReadResult) (ocr : Except String (Option ReadResult))
    (hrr : ∀ b ∈ rr.blocks, b.lines = []) (h0 : 0 < L) (h1 : L ≤ 20971520) :
    (process_image L img (Except.ok (some rr))).extracted = some "" ∧
    (process_image L img (Except.ok none)).extracted = none ∧
    (process_image L img (Except.ok (some rr))).sentiment_called = false ∧
    (process_image L img (Except.ok none)).sentiment_called = false ∧
    ((process_image L img ocr).sentiment_called = true ↔
      ∃ s, (process_image L img ocr).extracted = some s ∧ pyStrip s ≠ "") := by
  have hz : ¬ (L = 0) := by omega
  have hg : ¬ (L > 20971520) := by omega
  have hlines : linesOf rr = [] := by
    unfold linesOf
    have hgen : ∀ bs : List TextBlock, (∀ b ∈ bs, b.lines = []) →
        bs.flatMap (fun b => b.lines) = [] := by
      intro bs
      induction bs with
      | nil => intro _; rfl
      | cons b rest ih =>
        intro h
        rw [List.flatMap_cons, h b (by simp), ih (fun x hx => h x (by simp [hx]))]
        rfl
    exact hgen rr.blocks hrr
  have hempty : (GetTextRead (Except.ok (some rr)) img).extracted = some "" := by
    rw [GetTextRead_ok_some]
    simp [lineTexts, hlines, catSpaces, pyStrip, rstripChars]
  refine ⟨?_, ?_, ?_, ?_, ?_⟩
  · simp [process_image, hz, hg, hempty]
  · simp [process_image, hz, hg, GetTextRead]
  · simp [process_image, hz, hg, hempty, strTruthy]
  · simp [process_image, hz, hg, GetTextRead, strTruthy]
  · cases ocr with
    | error e => simp [process_image, hz, hg, GetTextRead, strTruthy]
    | ok o =>
      cases o with
      | none => simp [process_image, hz, hg, GetTextRead, strTruthy]
      | some rr2 =>
        simp only [process_image, hz, hg, if_false, GetTextRead_ok_some]
        simp [strTruthy, pyStrip_idem]

/-- Witness for zero_lines_empty_document_spec on a blockless read
section. -/
theorem zero_lines_empty_document_spec_witness :
    (process_image 5 ⟨0, []⟩ (Except.ok (some ⟨[]⟩))).extracted = some "" ∧
    (process_image 5 ⟨0, []⟩ (Except.ok none)).extracted = none ∧
    (process_image 5 ⟨0, []⟩ (Except.ok (some ⟨[]⟩))).sentiment_called = false := by
  have h := zero_lines_empty_document_spec 5 ⟨0, []⟩ ⟨[]⟩ (Except.ok none)
    (by simp) (by omega) (by omega)
  exact ⟨h.1, h.2.1, h.2.2.1⟩

